import Mathlib

/-!
Shallow embedding of the video-acquisition-and-analysis pipeline of `app.py`
(Flask backend: URL validation, yt-dlp download with per-platform strategies,
Gemini upload/polling/generation with retry, `/analyze` and `/api/translate`
handlers).

Conventions of the embedding:
* Network and OS effects (yt-dlp invocations, `genai.upload_file`,
  `genai.get_file`, `genai.generate_content`, `genai.delete_file`,
  `genai.GenerativeModel`, `genai.list_models`, FTP transfers) are oracles:
  each is a field of an oracle record giving the outcome the external world
  returns on that call.  `os.remove` is modelled as always succeeding.
* Python exceptions are modelled by error constructors named after the raise
  site; the Vietnamese remediation texts wrapping them are elided, the
  fragment of the underlying message the code embeds is kept.
* Python `str.lower()` is modelled by ASCII lowering (`Char.toLower`), which
  agrees with Python on every pattern the code matches (all are ASCII).
* Machine integers do not occur: all counters are small `Nat`s.
-/

/-! ### String helpers (Python `in`, `.lower()`, `re` fragments) -/

/-- ASCII-lowered character list of a string; models Python `s.lower()` for
the ASCII patterns the code searches for. -/
def lowerChars (s : String) : List Char := s.data.map Char.toLower

/-- Does `pat` occur as a contiguous sublist of `hay`?  Models Python
`pat in hay` on strings. -/
def containsSub : List Char → List Char → Bool
  | hay, pat =>
    if pat.isPrefixOf hay then true
    else
      match hay with
      | [] => false
      | _ :: t => containsSub t pat

/-- Case-sensitive Python `pat in s`. -/
def strContains (s pat : String) : Bool := containsSub s.data pat.data

/-- Case-insensitive containment: Python `pat in s.lower()` with `pat`
lowercase, or `re.search(pat, s, re.IGNORECASE)` for a literal pattern. -/
def strContainsCI (s pat : String) : Bool :=
  containsSub (lowerChars s) (lowerChars pat)

/-- First `n` characters of a string; models Python `s[:n]`. -/
def takeChars (n : Nat) (s : String) : String := String.mk (s.data.take n)

/-- The ESC character `\x1b`. -/
def escChar : Char := Char.ofNat 27

/-- Consume `[0-9;]*` then `m`; returns the remainder on a match.  Helper for
the terminal-escape stripper `re.sub(richEscape, ..)` in app.py:554/623. -/
def ansiSkip : List Char → Option (List Char)
  | [] => none
  | c :: t =>
    if c = 'm' then some t
    else if c.isDigit || c = ';' then ansiSkip t
    else none

/-- Fuel-indexed worker for `stripEsc`; fuel = remaining character budget
(one unit per character consumed, so the length of the input suffices). -/
def stripEscGo : Nat → List Char → List Char
  | 0, l => l
  | _ + 1, [] => []
  | fuel + 1, c :: t =>
    if c = escChar then
      match t with
      | '[' :: t2 =>
        match ansiSkip t2 with
        | some rest => stripEscGo fuel rest
        | none => c :: stripEscGo fuel t
      | _ => c :: stripEscGo fuel t
    else c :: stripEscGo fuel t

/-- Strip ANSI colour sequences: `re.sub(r"\x1b\[[0-9;]*m", "", s)`
(app.py lines 554 and 623). -/
def stripEsc (s : String) : String := String.mk (stripEscGo s.data.length s.data)

/-- Digit list to number; used by the retry-hint parser. -/
def digitsToNat (ds : List Char) : Nat :=
  ds.foldl (fun a c => a * 10 + (c.toNat - 48)) 0

/-- Attempt to parse `\d+\.?\d*` immediately followed by `s`, returning the
integer part (Python `int(float(match))`). -/
def parseRetryAt (l : List Char) : Option Nat :=
  let ds := l.takeWhile Char.isDigit
  if ds.isEmpty then none
  else
    let rest := l.dropWhile Char.isDigit
    let rest2 :=
      match rest with
      | '.' :: t => t.dropWhile Char.isDigit
      | _ => rest
    match rest2 with
    | 's' :: _ => some (digitsToNat ds)
    | _ => none

/-- Scan for an occurrence of `retry in ` followed by a number and `s`. -/
def retrySearch : List Char → Option Nat
  | [] => none
  | c :: t =>
    if ("retry in ".data).isPrefixOf (c :: t) then
      match parseRetryAt ((c :: t).drop 9) with
      | some n => some n
      | none => retrySearch t
    else retrySearch t

/-- Models `re.search(r"retry in (\d+\.?\d*)s", msg, re.IGNORECASE)` followed
by `int(float(group(1)))` (app.py lines 852-854). -/
def parseRetry (msg : String) : Option Nat := retrySearch (lowerChars msg)

/-- Rate-limit detection, app.py line 848:
`"429" in msg or "quota" in msg.lower() or "rate limit" in msg.lower()`. -/
def isRateLimit (msg : String) : Bool :=
  strContains msg "429" || strContainsCI msg "quota" || strContainsCI msg "rate limit"

/-- Model-not-found detection, app.py line 744:
`"404" in msg or "not found" in msg.lower() or "not supported" in msg.lower()`. -/
def is404 (msg : String) : Bool :=
  strContains msg "404" || strContainsCI msg "not found" || strContainsCI msg "not supported"

/-- Upload-failure classification, app.py line 724:
`"rejected" in msg.lower() or "failed" in msg.lower()`. -/
def matchesRejectedOrFailed (msg : String) : Bool :=
  strContainsCI msg "rejected" || strContainsCI msg "failed"

/-- Boolean monotone (non-decreasing) test on a list of delays. -/
def sortedLe : List Nat → Bool
  | [] => true
  | [_] => true
  | a :: b :: t => decide (a ≤ b) && sortedLe (b :: t)

/-! ### Media Fetcher: `download_video` (app.py lines 468-624) -/

/-- Host patterns of the service itself, from the regex at app.py line 473:
`(onrender\.com|railway\.app|localhost|127\.0\.0\.1)`, case-insensitive. -/
def self_host_patterns : List String :=
  ["onrender.com", "railway.app", "localhost", "127.0.0.1"]

/-- `re.search` of the self-host pattern over the URL (app.py line 473). -/
def matchesSelfHost (url : String) : Bool :=
  self_host_patterns.any fun p => strContainsCI url p

/-- Outcomes of the external calls `download_video` makes.
`igAttempt i = none` means the i-th Instagram yt-dlp option set succeeds
(producing the temp file); `some msg` means it raises with message `msg`.
`defaultAttempt` likewise for the single default-platform yt-dlp call.
`defaultFileExists` is `os.path.exists(temp_name)` after a successful default
download (line 593).  `ftpUpload` is the value of `upload_video_to_ftp`:
`some url` on success, `none` when FTP is unconfigured or fails (non-fatal). -/
structure DlOracle where
  igAttempt : Nat → Option String
  defaultAttempt : Option String
  defaultFileExists : Bool
  ftpUpload : Option String

/-- Raise sites of `download_video`:
`invalidSource` = the self-URL RuntimeError (line 474);
`instagramExhausted` = all three Instagram methods failed (line 555), carrying
the escape-stripped last error truncated to 150 chars;
`downloadFailed` = the default-branch RuntimeError (line 624), carrying the
escape-stripped tool error. -/
inductive DlErr
  | invalidSource
  | instagramExhausted (detail : String)
  | downloadFailed (detail : String)
deriving DecidableEq, Repr

/-- Result value of `download_video`. -/
inductive DlRes
  | ok (path : String)
  | err (e : DlErr)
deriving DecidableEq, Repr

/-- Result of `download_video` together with its observable trace:
`attempts` counts yt-dlp strategy invocations (network calls), `fileExists`
whether the local temp file exists when the function returns or raises. -/
structure DlOut where
  res : DlRes
  attempts : Nat
  fileExists : Bool
deriving DecidableEq, Repr

/-- The Instagram fallback loop (app.py lines 540-562): try each of the three
option sets in order, return at the first success, remember the last error;
on exhaustion raise with the cleaned last error (or the fixed fallback text
when no error was recorded). -/
def igLoop (o : DlOracle) (tempName : String) :
    List Nat → Option String → Nat → DlOut
  | [], lastErr, tried =>
    let base :=
      match lastErr with
      | some e => stripEsc e
      | none => "Không thể tải video"
    { res := .err (.instagramExhausted (takeChars 150 base)),
      attempts := tried, fileExists := false }
  | i :: rest, _lastErr, tried =>
    match o.igAttempt i with
    | none => { res := .ok tempName, attempts := tried + 1, fileExists := true }
    | some e => igLoop o tempName rest (some e) (tried + 1)

/-- `download_video(url)` (app.py lines 468-624).  The self-host check
happens before the temp name is even built and before any strategy runs.
Instagram URLs go through the three-method fallback; all other platforms use
one option set, then (on success, when the file exists) try to stage the file
to FTP: on staged success the local file is deleted and the public URL is
returned, otherwise the local path is returned. -/
def download_video (o : DlOracle) (url : String) (tempName : String) : DlOut :=
  if matchesSelfHost url then
    { res := .err .invalidSource, attempts := 0, fileExists := false }
  else if strContainsCI url "instagram.com" then
    igLoop o tempName (List.range 3) none 0
  else
    match o.defaultAttempt with
    | some msg =>
      -- line 615-624: on error the temp file is removed, then the cleaned
      -- message is raised
      { res := .err (.downloadFailed (stripEsc msg)), attempts := 1,
        fileExists := false }
    | none =>
      if o.defaultFileExists then
        match o.ftpUpload with
        | some publicUrl =>
          -- lines 600-609: staged to FTP, local copy deleted, URL returned
          { res := .ok publicUrl, attempts := 1, fileExists := false }
        | none =>
          { res := .ok tempName, attempts := 1, fileExists := true }
      else
        { res := .ok tempName, attempts := 1, fileExists := false }

/-! ### Inference submission and generation:
`analyze_video_with_gemini` (app.py lines 626-900) -/

/-- Remote processing state reported by `genai.get_file` (app.py 687-700). -/
inductive FileState
  | PROCESSING
  | ACTIVE
  | FAILED
deriving DecidableEq, Repr

/-- Outcome of one `generate_content` attempt: the text returned, or the
message of the exception raised. -/
inductive GenOutcome
  | ok (text : String)
  | exn (msg : String)
deriving DecidableEq, Repr

/-- Outcome of the polling while-loop. -/
inductive PollOutcome
  | active
  | failed
  | timeout
deriving DecidableEq, Repr

/-- `max_wait = 120` seconds (app.py line 683). -/
def max_wait : Nat := 120

/-- The polling loop of app.py lines 683-711:
`while waited < 120: poll; if ACTIVE break; if FAILED raise; sleep(2);
waited += 2`.  `st w` is the state `genai.get_file` reports at time `w`.
Returns the outcome and the list of times at which the state was polled.
Fuel-indexed worker: 61 units of fuel exceed the at most 60 iterations the
guard allows, so the `waited < 120` guard is what stops the loop. -/
def pollGo (st : Nat → FileState) : Nat → Nat → PollOutcome × List Nat
  | fuel + 1, waited =>
    if waited < max_wait then
      match st waited with
      | .ACTIVE => (.active, [waited])
      | .FAILED => (.failed, [waited])
      | .PROCESSING =>
        let r := pollGo st fuel (waited + 2)
        (r.1, waited :: r.2)
    else (.timeout, [])
  | 0, _ => (.timeout, [])

/-- The polling loop started at `waited = 0`. -/
def pollLoop (st : Nat → FileState) : PollOutcome × List Nat := pollGo st 61 0

/-- Raise sites of `analyze_video_with_gemini`:
`ftpFetchFailed` = line 643 (FTP re-localization failed);
`uploadException` = `genai.upload_file` raised, classified by the except at
line 716 (`wrapped` = whether the message matched rejected/failed and was
re-raised with the remediation wrapper at line 725);
`rejectedByService` = line 708, state FAILED (`wrapped` likewise, decided by
the optional `file.error` detail appended at line 705);
`processingTimeout` = line 714 (its fixed message matches neither keyword,
so it is re-raised unwrapped);
`modelFallbackFailed` = lines 766/775 (model-not-found and no usable
substitute), carrying the original creation error;
`modelCreateError` = line 781, a non-404 model-creation error re-raised;
`rateLimited` = line 861, retries exhausted, carrying the last error message
(embedded truncated in the remediation text);
`generateError` = line 869, a non-rate-limit generation error re-raised. -/
inductive GemErr
  | ftpFetchFailed
  | uploadException (msg : String) (wrapped : Bool)
  | rejectedByService (wrapped : Bool)
  | processingTimeout
  | modelFallbackFailed (origMsg : String)
  | modelCreateError (msg : String)
  | rateLimited (msg : String)
  | generateError (msg : String)
deriving DecidableEq, Repr

/-- Result value of `analyze_video_with_gemini`. -/
inductive GemRes
  | ok (text : String)
  | err (e : GemErr)
deriving DecidableEq, Repr

/-- Outcomes of the external calls `analyze_video_with_gemini` makes.
`ftpFetchOk` = result of `download_from_ftp` (FTP-URL branch only);
`ftpPartialFile` = when that fetch fails, whether it failed after opening
the local temp file: `download_from_ftp` opens `local_path` in `wb` mode
(app.py line 423) before `retrbinary` can fail, so a failure during the
transfer leaves a partially written local file behind, while a failure of
connect / login / cwd leaves none;
`upload` = `genai.upload_file`: `none` succeeds, `some msg` raises;
`state w` = processing state `genai.get_file` reports at time `w`;
`fileErrorAttr` = the optional `file.error` detail on a FAILED file
(`none` when the attribute is absent or falsy);
`createModel name` = `genai.GenerativeModel(name)`: `none` succeeds,
`some msg` raises with message `msg`;
`listModels` = `genai.list_models()` as (name, supports-generateContent)
pairs, `none` when enumeration itself raises;
`gen i` = outcome of the i-th `generate_content` attempt;
`deleteFails i` = whether the i-th `genai.delete_file` call raises. -/
structure GemOracle where
  ftpFetchOk : Bool
  ftpPartialFile : Bool
  upload : Option String
  state : Nat → FileState
  fileErrorAttr : Option String
  createModel : String → Option String
  listModels : Option (List (String × Bool))
  gen : Nat → GenOutcome
  deleteFails : Nat → Bool

/-- The base message raised when the remote state is FAILED (line 701). -/
def rejected_base_msg : String := "Google từ chối file."

/-- The FAILED-state message with the optional `file.error` detail appended
(app.py lines 701-705). -/
def rejectedFileMsg (fileErrorAttr : Option String) : String :=
  match fileErrorAttr with
  | some d => rejected_base_msg ++ "\nChi tiết: " ++ d
  | none => rejected_base_msg

/-- The model filter used on the per-request fallback path of
`analyze_video_with_gemini` (app.py lines 751-758): keep models supporting
generateContent whose name contains gemini but not gemma, and none of
2.5 / 2.0 (case-sensitive) / exp / latest / preview / 3-pro. -/
def fallbackFilter (ms : List (String × Bool)) : List String :=
  (ms.filter fun p =>
    p.2 && strContainsCI p.1 "gemini" && !strContainsCI p.1 "gemma" &&
      !strContains p.1 "2.5" && !strContains p.1 "2.0" &&
      !strContainsCI p.1 "exp" && !strContainsCI p.1 "latest" &&
      !strContainsCI p.1 "preview" && !strContainsCI p.1 "3-pro").map Prod.fst

/-- Result of the model-instantiation phase. -/
inductive ModelPhaseRes
  | ok (name : String)
  | err (e : GemErr)
deriving DecidableEq, Repr

/-- The model-instantiation phase of app.py lines 739-781.  Try the cached
choice; on a 404-style error re-enumerate, filter, and use the first
surviving candidate for this request only; an empty candidate list, an
enumeration failure, or a failing substitute all end in the line-775
RuntimeError; a non-404 error is re-raised (line 781).  Note this whole
phase runs before the try/finally that guards deletion of the uploaded
remote file. -/
def modelPhase (o : GemOracle) (chosenModel : String) : ModelPhaseRes :=
  match o.createModel chosenModel with
  | none => .ok chosenModel
  | some msg =>
    if is404 msg then
      match o.listModels with
      | none => .err (.modelFallbackFailed msg)
      | some ms =>
        match fallbackFilter ms with
        | [] => .err (.modelFallbackFailed msg)
        | m :: _ =>
          match o.createModel m with
          | none => .ok m
          | some _ => .err (.modelFallbackFailed msg)
    else .err (.modelCreateError msg)

/-- Prompt template kind selected by `mode` (app.py lines 783-811); the
template text itself is elided. -/
inductive PromptKind
  | transcript
  | detailed
deriving DecidableEq, Repr

/-- `if mode == "transcript": ... else: ...` (app.py line 783). -/
def promptFor (mode : String) : PromptKind :=
  if mode = "transcript" then .transcript else .detailed

/-- `max_retries = 3` (app.py line 819). -/
def max_retries : Nat := 3

/-- The placeholder returned when the service yields empty content
(app.py line 826). -/
def empty_content_placeholder : String := "Không có nội dung trả về."

/-- Observable outcome of the generation for-loop (app.py lines 823-869):
result, the sleeps performed between rate-limited attempts, the number of
`generate_content` attempts made, the number of in-loop `delete_file` calls,
and whether `uploaded_file` was set to `None` (which happens only when the
in-loop deletion call did not raise, line 834). -/
structure LoopOut where
  res : GemRes
  sleeps : List Nat
  attemptsMade : Nat
  inLoopDeletes : Nat
  uploadedCleared : Bool
deriving DecidableEq, Repr

/-- The retry for-loop (app.py lines 823-869).  Arguments: remaining attempt
indices (starting from `range(max_retries)`), current `retry_delay`
(initially 5), sleeps so far, attempts made so far.  On success the text (or
the placeholder for empty content) is returned and `delete_file` is called
at once; on a rate-limit error with attempts remaining, the delay is
overridden by a parsed `retry in Ns` hint (+2) when present, slept, then
doubled; on exhaustion the rate-limit error is raised; any other error is
re-raised.  The `[]` case is the fall-through return at line 900 (dead code
for a 3-attempt loop, every third-attempt branch returns or raises). -/
def genFor (gen : Nat → GenOutcome) (deleteFails : Nat → Bool) :
    List Nat → Nat → List Nat → Nat → LoopOut
  | [], _, acc, made =>
    { res := .ok empty_content_placeholder, sleeps := acc, attemptsMade := made,
      inLoopDeletes := 0, uploadedCleared := false }
  | a :: rest, delay, acc, made =>
    match gen a with
    | .ok t =>
      let result := if t = "" then empty_content_placeholder else t
      { res := .ok result, sleeps := acc, attemptsMade := made + 1,
        inLoopDeletes := 1, uploadedCleared := !(deleteFails 0) }
    | .exn m =>
      if isRateLimit m then
        if a < max_retries - 1 then
          let d :=
            match parseRetry m with
            | some n => n + 2
            | none => delay
          genFor gen deleteFails rest (d * 2) (acc ++ [d]) (made + 1)
        else
          { res := .err (.rateLimited m), sleeps := acc, attemptsMade := made + 1,
            inLoopDeletes := 0, uploadedCleared := false }
      else
        { res := .err (.generateError m), sleeps := acc, attemptsMade := made + 1,
          inLoopDeletes := 0, uploadedCleared := false }

/-- Outcome of the generation try/finally (app.py lines 822-898). -/
structure GenPhase where
  res : GemRes
  sleeps : List Nat
  attemptsMade : Nat
  deleteCalls : Nat
deriving DecidableEq, Repr

/-- The try/finally around the retry loop: the finally block (line 870)
issues one more `delete_file` call exactly when `uploaded_file` is still
set, i.e. unless the in-loop deletion ran and did not raise. -/
def genPhase (gen : Nat → GenOutcome) (deleteFails : Nat → Bool) : GenPhase :=
  let L := genFor gen deleteFails (List.range max_retries) 5 [] 0
  { res := L.res, sleeps := L.sleeps, attemptsMade := L.attemptsMade,
    deleteCalls := L.inLoopDeletes + (if L.uploadedCleared then 0 else 1) }

/-- `videoPathOrUrl.startswith("http://") or .startswith("https://")`
(app.py line 636). -/
def isHttpUrl (s : String) : Bool :=
  ("http://".data).isPrefixOf s.data || ("https://".data).isPrefixOf s.data

/-- Result of `analyze_video_with_gemini` with its observable trace:
`deleteCalls` counts every `genai.delete_file` invocation over the whole
call, `sleeps` the rate-limit waits, `attemptsMade` the `generate_content`
calls, `pollTimes` the times at which `genai.get_file` was polled,
`localFileExists` whether the local video file still exists on return,
`modelUsed` the model actually addressed (when generation was reached),
`promptUsed` the selected template, and `chosenAfter` the value of the
process-wide `CHOSEN_MODEL` cache when the call ends (the global is threaded
explicitly to make mutation observable). -/
structure GemResult where
  res : GemRes
  deleteCalls : Nat
  sleeps : List Nat
  attemptsMade : Nat
  pollTimes : List Nat
  localFileExists : Bool
  modelUsed : Option String
  promptUsed : Option PromptKind
  chosenAfter : String
deriving DecidableEq, Repr

/-- `analyze_video_with_gemini(video_path_or_url, mode)`
(app.py lines 626-900).  Walks the phases of the source in order:
FTP re-localization for http(s) inputs (line 636-646); size read — logged
only, the limit check was removed (lines 651-657); upload, with the local
file removed immediately after the upload call returns (lines 661-680);
the 120-second / 2-second polling loop (lines 682-714) with its except
block (716-734); model instantiation with per-request fallback (739-781),
which runs OUTSIDE the delete-file try/finally; prompt selection (783-811);
and the generation retry loop inside try/finally (818-898).  `fileSize` is
the `os.path.getsize` result; no branch inspects it. -/
def analyze_video_with_gemini (o : GemOracle) (chosenModel : String)
    (videoPathOrUrl : String) (fileSize : Nat) (mode : String) : GemResult :=
  let isFromFtp := isHttpUrl videoPathOrUrl
  if isFromFtp && !o.ftpFetchOk then
    -- lines 642-643: FTP fetch failed, raise before any upload; nothing on
    -- this raise path deletes the partially written temp file that
    -- download_from_ftp may have created (open before retrbinary,
    -- app.py lines 423-432)
    { res := .err .ftpFetchFailed, deleteCalls := 0, sleeps := [],
      attemptsMade := 0, pollTimes := [], localFileExists := o.ftpPartialFile,
      modelUsed := none, promptUsed := none, chosenAfter := chosenModel }
  else
    match o.upload with
    | some msg =>
      -- upload_file raised; the except at 716 removes the local file and
      -- classifies the message
      { res := .err (.uploadException msg (matchesRejectedOrFailed msg)),
        deleteCalls := 0, sleeps := [], attemptsMade := 0, pollTimes := [],
        localFileExists := false, modelUsed := none, promptUsed := none,
        chosenAfter := chosenModel }
    | none =>
      -- lines 670-680: the local file is deleted right after the upload call
      let p := pollLoop o.state
      match p.1 with
      | .failed =>
        { res := .err (.rejectedByService
            (matchesRejectedOrFailed (rejectedFileMsg o.fileErrorAttr))),
          deleteCalls := 0, sleeps := [], attemptsMade := 0, pollTimes := p.2,
          localFileExists := false, modelUsed := none, promptUsed := none,
          chosenAfter := chosenModel }
      | .timeout =>
        { res := .err .processingTimeout, deleteCalls := 0, sleeps := [],
          attemptsMade := 0, pollTimes := p.2, localFileExists := false,
          modelUsed := none, promptUsed := none, chosenAfter := chosenModel }
      | .active =>
        match modelPhase o chosenModel with
        | .err e =>
          -- raised before the try/finally at 822: no delete_file call is made
          { res := .err e, deleteCalls := 0, sleeps := [], attemptsMade := 0,
            pollTimes := p.2, localFileExists := false, modelUsed := none,
            promptUsed := none, chosenAfter := chosenModel }
        | .ok used =>
          let g := genPhase o.gen o.deleteFails
          { res := g.res, deleteCalls := g.deleteCalls, sleeps := g.sleeps,
            attemptsMade := g.attemptsMade, pollTimes := p.2,
            localFileExists := false, modelUsed := some used,
            promptUsed := some (promptFor mode), chosenAfter := chosenModel }

/-! ### The `/analyze` handler (app.py lines 920-972) -/

/-- The authenticated user as the handler sees it: the blocked flag and
whether the attribute exists on the record (the code guards with
`hasattr(user, "is_blocked")`, line 926). -/
structure UserRec where
  is_blocked : Bool
  hasBlockedAttr : Bool
deriving DecidableEq, Repr

/-- Request to `/analyze`: the resolved user (none = not authenticated), and
the JSON body fields `url` and `mode` (absent field = `none`; Python treats
an empty url string as missing too, via `if not url`). -/
structure AnalyzeReq where
  authUser : Option UserRec
  url : Option String
  mode : Option String
deriving DecidableEq, Repr

/-- Error payload kinds of the `/analyze` handler.  The first three are the
early returns at lines 923, 927 and 935; `fromDownload` and `fromGemini`
are pipeline exceptions caught at line 963; `nameErrorVideoPathOrUrl` is
the NameError raised at line 952, where the handler evaluates
`video_path_or_url` — a variable that exists only inside
`analyze_video_with_gemini`, not in `analyze` — and which the same except
turns into a 500 response. -/
inductive HandlerErr
  | needLogin
  | blocked
  | missingUrl
  | fromDownload (e : DlErr)
  | fromGemini (e : GemErr)
  | nameErrorVideoPathOrUrl
deriving DecidableEq, Repr

/-- Response of the `/analyze` handler:`ok` is `jsonify({"script": ...})`
with HTTP 200, `err` is `jsonify({"error": ...})` with the given status. -/
inductive HandlerResp
  | ok (script : String)
  | err (e : HandlerErr) (status : Nat)
deriving DecidableEq, Repr

/-- The `/analyze` route (app.py lines 920-972): auth check (401), blocked
check (403), missing-url check (400), then the pipeline; any exception is
answered with status 500.  On the pipeline success path the handler reaches
line 952, which reads the undefined name `video_path_or_url` and therefore
raises NameError before `jsonify({"script": script_text})` at line 962 can
execute; the except at line 963 converts it into an error 500 response. -/
def analyze_route (dlo : DlOracle) (go : GemOracle) (chosenModel : String)
    (tempName : String) (fileSize : Nat) (req : AnalyzeReq) : HandlerResp :=
  match req.authUser with
  | none => .err .needLogin 401
  | some u =>
    if u.hasBlockedAttr && u.is_blocked then .err .blocked 403
    else
      match req.url with
      | none => .err .missingUrl 400
      | some url =>
        if url = "" then .err .missingUrl 400
        else
          let mode := req.mode.getD "detailed"
          let d := download_video dlo url tempName
          match d.res with
          | .err e => .err (.fromDownload e) 500
          | .ok path =>
            let g := analyze_video_with_gemini go chosenModel path fileSize mode
            match g.res with
            | .err e => .err (.fromGemini e) 500
            | .ok _script =>
              -- app.py line 952: `video_path_or_url` is not defined in
              -- `analyze`; NameError is raised and caught by line 963
              .err .nameErrorVideoPathOrUrl 500

/-! ### The `/api/translate` handler (app.py lines 1123-1218) -/

/-- The character set Python `str.isspace()` (and hence `str.strip()` with
no argument) treats as whitespace: U+0009 to U+000D, U+001C to U+001F,
space, U+0085, U+00A0, U+1680, U+2000 to U+200A, U+2028, U+2029, U+202F,
U+205F and U+3000. -/
def pyIsSpace (c : Char) : Bool :=
  let n := c.toNat
  (9 ≤ n && n ≤ 13) || (28 ≤ n && n ≤ 31) || n = 32 || n = 133 || n = 160 ||
    n = 5760 || (8192 ≤ n && n ≤ 8202) || n = 8232 || n = 8233 || n = 8239 ||
    n = 8287 || n = 12288

/-- Python `str.strip()` with no argument: drop `pyIsSpace` characters from
both ends. -/
def pyStrip (s : String) : List Char :=
  ((s.data.dropWhile pyIsSpace).reverse.dropWhile pyIsSpace).reverse

/-- Outcomes of the external calls `/api/translate` makes. -/
structure TransOracle where
  createModel : String → Option String
  listModels : Option (List (String × Bool))
  gen : Nat → GenOutcome

/-- Error payload kinds of `/api/translate`:`needLogin` and `missingText`
are the early returns (lines 1130, 1139); the others are exceptions caught
by the outer except at line 1216 and answered with 500. -/
inductive TransErr
  | needLogin
  | missingText
  | modelUnavailable (msg : String)
  | listModelsFailed
  | fallbackCreateFailed (msg : String)
  | modelCreateError (msg : String)
  | rateLimited (msg : String)
  | generateError (msg : String)
  | loopExit
deriving DecidableEq, Repr

/-- Response of `/api/translate`: `ok` carries `translated_text`,
`target_language`, `language_name` (HTTP 200). -/
inductive TransResult
  | ok (translated_text : String) (target_language : String) (language_name : String)
  | err (e : TransErr) (status : Nat)
deriving DecidableEq, Repr

/-- The model filter of the translate fallback path (app.py lines 1152-1159);
unlike the analyze-path filter it does not exclude `2.0` or `3-pro`. -/
def translateFallbackFilter (ms : List (String × Bool)) : List String :=
  (ms.filter fun p =>
    p.2 && strContainsCI p.1 "gemini" && !strContainsCI p.1 "gemma" &&
      !strContains p.1 "2.5" && !strContainsCI p.1 "exp" &&
      !strContainsCI p.1 "latest" && !strContainsCI p.1 "preview").map Prod.fst

/-- Result of the translate model-instantiation phase. -/
inductive TransModelRes
  | ok (name : String)
  | err (e : TransErr)
deriving DecidableEq, Repr

/-- Model instantiation for `/api/translate` (app.py lines 1145-1166). -/
def transModelPhase (o : TransOracle) (chosenModel : String) : TransModelRes :=
  match o.createModel chosenModel with
  | none => .ok chosenModel
  | some msg =>
    if is404 msg then
      match o.listModels with
      | none => .err .listModelsFailed
      | some ms =>
        match translateFallbackFilter ms with
        | [] => .err (.modelUnavailable msg)
        | m :: _ =>
          match o.createModel m with
          | none => .ok m
          | some m2 => .err (.fallbackCreateFailed m2)
    else .err (.modelCreateError msg)

/-- Value produced by the translate retry loop. -/
inductive TransGenRes
  | ok (t : String)
  | err (e : TransErr)
deriving DecidableEq, Repr

/-- The translate retry loop (app.py lines 1178-1207): same retry/backoff
shape as the analyze loop, but on success with empty content the STRIPPED
INPUT TEXT is used as the translation (line 1181), and no remote file is
involved.  The `[]` fall-through mirrors reaching `jsonify` with
`translated_text` unbound (dead code for a 3-attempt loop). -/
def transFor (gen : Nat → GenOutcome) (text : String) :
    List Nat → Nat → List Nat → TransGenRes × List Nat
  | [], _, acc => (.err .loopExit, acc)
  | a :: rest, delay, acc =>
    match gen a with
    | .ok t => (.ok (if t = "" then text else t), acc)
    | .exn m =>
      if isRateLimit m then
        if a < max_retries - 1 then
          let d :=
            match parseRetry m with
            | some n => n + 2
            | none => delay
          transFor gen text rest (d * 2) (acc ++ [d])
        else (.err (.rateLimited m), acc)
      else (.err (.generateError m), acc)

/-- Request to `/api/translate`: whether a user is authenticated, and the
JSON body fields. -/
structure TransReq where
  authed : Bool
  text : String
  target_language : String
  language_name : String
deriving DecidableEq, Repr

/-- The `/api/translate` route (app.py lines 1123-1218): auth check (401),
strip the text and reject empty (400), instantiate the model with the
translate fallback, run the retry loop, answer 200 with the translation. -/
def api_translate (o : TransOracle) (chosenModel : String) (req : TransReq) :
    TransResult :=
  if !req.authed then .err .needLogin 401
  else
    let text := String.mk (pyStrip req.text)
    if text = "" then .err .missingText 400
    else
      match transModelPhase o chosenModel with
      | .err e => .err e 500
      | .ok _used =>
        match transFor o.gen text (List.range max_retries) 5 [] with
        | (.err e, _) => .err e 500
        | (.ok t, _) => .ok t req.target_language req.language_name

/-! ### Concrete runs used by the closed theorems below -/

/-- A run of the external world in which every call of the Gemini pipeline
succeeds at once. -/
def happyGem : GemOracle :=
  { ftpFetchOk := true, ftpPartialFile := false, upload := none,
    state := fun _ => .ACTIVE,
    fileErrorAttr := none, createModel := fun _ => none, listModels := some [],
    gen := fun _ => .ok "Kich ban thu nghiem", deleteFails := fun _ => false }

/-- A run in which the single default download strategy succeeds and FTP
staging is not configured. -/
def happyDl : DlOracle :=
  { igAttempt := fun _ => none, defaultAttempt := none,
    defaultFileExists := true, ftpUpload := none }

/-- An authenticated, non-blocked request with a valid TikTok URL. -/
def happyReq : AnalyzeReq :=
  { authUser := some { is_blocked := false, hasBlockedAttr := true },
    url := some "https://www.tiktok.com/@x/video/123", mode := none }

/-- Run in which model instantiation fails with a non-404 error after the
uploaded file reached ACTIVE. -/
def gem4 : GemOracle :=
  { happyGem with createModel := fun _ => some "Internal server error" }

/-- Generation outcomes that are all rate-limited, the first two carrying
parseable retry hints of 30s and then 1s. -/
def rlHintGen : Nat → GenOutcome
  | 0 => .exn "Error 429: quota exceeded. Please retry in 30s."
  | 1 => .exn "Error 429: quota exceeded. Please retry in 1s."
  | _ => .exn "Error 429: quota exceeded."

/-- Run whose generation attempts all fail rate-limited with the hints of
`rlHintGen`. -/
def gem5 : GemOracle := { happyGem with gen := rlHintGen }

/-- Run whose generation attempts all fail rate-limited without any hint. -/
def gem5w : GemOracle :=
  { happyGem with gen := fun _ => .exn "429 quota hit" }

/-- Run in which the remote file goes to FAILED at the first poll. -/
def gem6 : GemOracle := { happyGem with state := fun _ => .FAILED }

/-- Run in which the first two Instagram strategies fail and the third
succeeds. -/
def dl7 : DlOracle :=
  { igAttempt := fun i => if i < 2 then some "HTTP Error 403: Forbidden" else none,
    defaultAttempt := none, defaultFileExists := true, ftpUpload := none }

/-- Run in which the cached model is rejected as not found and one usable
substitute exists. -/
def gem8 : GemOracle :=
  { happyGem with
      createModel := fun n =>
        if n = "models/gemini-1.5-flash-001" then some "404 model not found"
        else none,
      listModels := some [("models/gemini-1.5-flash-002", true)] }

/-- Run returning a fixed non-empty generated text. -/
def gem9 : GemOracle := { happyGem with gen := fun _ => .ok "Xin chao" }

/-- Translate-pipeline run in which generation returns empty content. -/
def trans10 : TransOracle :=
  { createModel := fun _ => none, listModels := some [], gen := fun _ => .ok "" }

/-! ### Helper lemmas -/

/-- Shape of the in-loop delete bookkeeping of the retry loop: every run
either returns a text (one in-loop `delete_file` call; `uploaded_file`
cleared exactly when that call did not raise) or raises (no in-loop call,
`uploaded_file` still set). -/
theorem genFor_delete_shape (gen : Nat → GenOutcome) (df : Nat → Bool) :
    ∀ (l : List Nat) (delay : Nat) (acc : List Nat) (made : Nat),
      ((genFor gen df l delay acc made).inLoopDeletes = 1 ∧
        (genFor gen df l delay acc made).uploadedCleared = !df 0) ∨
      ((genFor gen df l delay acc made).inLoopDeletes = 0 ∧
        (genFor gen df l delay acc made).uploadedCleared = false) := by
  intro l
  induction l with
  | nil => intro delay acc made; right; simp [genFor]
  | cons a rest ih =>
    intro delay acc made
    cases hg : gen a with
    | ok t => left; simp [genFor, hg]
    | exn m =>
      cases hrl : isRateLimit m with
      | false => right; simp [genFor, hg, hrl]
      | true =>
        by_cases hlt : a < max_retries - 1
        · simpa [genFor, hg, hrl, hlt] using
            ih ((match parseRetry m with | some n => n + 2 | none => delay) * 2)
              (acc ++ [match parseRetry m with | some n => n + 2 | none => delay])
              (made + 1)
        · right; simp [genFor, hg, hrl, hlt]

/-- The poll times are consecutive 2-step values starting at the initial
`waited`. -/
theorem pollGo_times (st : Nat → FileState) :
    ∀ (fuel waited : Nat),
      (pollGo st fuel waited).2
        = List.range' waited (pollGo st fuel waited).2.length 2 := by
  intro fuel
  induction fuel with
  | zero => intro w; simp [pollGo]
  | succ n ih =>
    intro w
    by_cases hw : w < max_wait
    · cases hst : st w with
      | PROCESSING =>
        simp only [pollGo, if_pos hw, hst]
        rw [List.length_cons, List.range'_succ]
        exact congrArg (List.cons w) (ih (w + 2))
      | ACTIVE => simp only [pollGo, if_pos hw, hst]; rfl
      | FAILED => simp only [pollGo, if_pos hw, hst]; rfl
    · simp [pollGo, hw]

/-- Every polled time is inside the 120-unit wait window. -/
theorem pollGo_mem_lt (st : Nat → FileState) :
    ∀ (fuel waited t : Nat), t ∈ (pollGo st fuel waited).2 → t < max_wait := by
  intro fuel
  induction fuel with
  | zero => intro w t ht; simp [pollGo] at ht
  | succ n ih =>
    intro w t ht
    by_cases hw : w < max_wait
    · cases hst : st w with
      | PROCESSING =>
        simp only [pollGo, if_pos hw, hst] at ht
        rcases List.mem_cons.mp ht with h | h
        · omega
        · exact ih (w + 2) t h
      | ACTIVE =>
        simp only [pollGo, if_pos hw, hst, List.mem_singleton] at ht
        omega
      | FAILED =>
        simp only [pollGo, if_pos hw, hst, List.mem_singleton] at ht
        omega
    · simp [pollGo, hw] at ht

/-- The loop polls at most 60 times. -/
theorem pollLoop_length_le (st : Nat → FileState) :
    (pollLoop st).2.length ≤ 60 := by
  by_contra hcon
  push_neg at hcon
  have htimes := pollGo_times st 61 0
  have hmem : 2 * 60 ∈ (pollLoop st).2 := by
    show 2 * 60 ∈ (pollGo st 61 0).2
    rw [htimes]
    exact List.mem_range'.mpr ⟨60, by exact hcon, by ring⟩
  have := pollGo_mem_lt st 61 0 (2 * 60) hmem
  simp [max_wait] at this

/-- If the first non-PROCESSING state observed on the 2-step schedule is
FAILED, the loop reports `failed`. -/
theorem pollGo_first_failed (st : Nat → FileState) (w : Nat)
    (hw : w < max_wait) (hev : w % 2 = 0) (hfail : st w = .FAILED)
    (hbefore : ∀ v, v < w → v % 2 = 0 → st v = .PROCESSING) :
    (pollLoop st).1 = .failed := by
  have key : ∀ (fuel u : Nat), u % 2 = 0 → u ≤ w → w < u + 2 * fuel →
      (pollGo st fuel u).1 = .failed := by
    intro fuel
    induction fuel with
    | zero => intro u _ h1 h2; omega
    | succ n ih =>
      intro u hu h1 h2
      have hw120 : w < 120 := hw
      have hult : u < max_wait := by
        show u < 120
        omega
      by_cases heq : u = w
      · subst heq
        simp [pollGo, if_pos hult, hfail]
      · have hlt : u < w := by omega
        have hst : st u = .PROCESSING := hbefore u hlt hu
        simp only [pollGo, if_pos hult, hst]
        exact ih (u + 2) (by omega) (by omega) (by omega)
  have hw120 : w < 120 := hw
  exact key 61 0 rfl (by omega) (by omega)

/-- If every polled state is PROCESSING, the loop reports `timeout`. -/
theorem pollGo_all_processing_timeout (st : Nat → FileState)
    (h : ∀ k, k < 60 → st (2 * k) = .PROCESSING) :
    (pollLoop st).1 = .timeout := by
  have key : ∀ (fuel j : Nat),
      (∀ k, j ≤ k → k < 60 → st (2 * k) = .PROCESSING) →
      (pollGo st fuel (2 * j)).1 = .timeout := by
    intro fuel
    induction fuel with
    | zero => intro j _; simp [pollGo]
    | succ n ih =>
      intro j hj
      by_cases hlt : 2 * j < max_wait
      · have hj60 : j < 60 := by
          simp only [max_wait] at hlt
          omega
        have hst : st (2 * j) = .PROCESSING := hj j le_rfl hj60
        simp only [pollGo, if_pos hlt, hst]
        have h2 : 2 * j + 2 = 2 * (j + 1) := by ring
        rw [h2]
        exact ih (j + 1) fun k hk hk2 => hj k (by omega) hk2
      · simp [pollGo, hlt]
  have := key 61 0 fun k _ hk => h k hk
  simpa [pollLoop] using this

/-! ### Claims -/

/-- Claim C1: the spec says that for an authenticated, non-blocked user with
a present url and a pipeline in which download succeeds and analysis
produces a script, POST /analyze answers with the script and status 200.
The code cannot: on this very path the handler evaluates the undefined name
`video_path_or_url` (app.py line 952), raising NameError before the
`jsonify` of the script, and the except at line 963 answers with an error
payload and status 500.  This theorem evaluates the handler on a failing
input: all external calls succeed, the download returns the temp file and
the analysis returns a script, yet the response is the NameError 500. -/
theorem C1_success_path_answers_name_error_500 :
    analyze_route happyDl happyGem "models/gemini-1.5-flash-001" "video_1.mp4"
        1000 happyReq
      = .err .nameErrorVideoPathOrUrl 500 ∧
    (download_video happyDl "https://www.tiktok.com/@x/video/123" "video_1.mp4").res
      = .ok "video_1.mp4" ∧
    (analyze_video_with_gemini happyGem "models/gemini-1.5-flash-001"
        "video_1.mp4" 1000 "detailed").res
      = .ok "Kich ban thu nghiem" := by
  refine ⟨?_, ?_, ?_⟩ <;> decide

/-- Claim C2: a URL matching one of the own-host patterns (onrender.com,
railway.app, localhost, 127.0.0.1, case-insensitive) makes `download_video`
raise InvalidSource before any strategy runs (zero yt-dlp invocations) and
with no local file created. -/
theorem C2_self_host_rejected_before_any_attempt (o : DlOracle)
    (url tempName : String) (h : matchesSelfHost url = true) :
    download_video o url tempName
      = { res := .err .invalidSource, attempts := 0, fileExists := false } := by
  simp [download_video, h]

/-- Witness for C2 at the concrete URL `http://localhost:5000/page`. -/
theorem C2_witness :
    matchesSelfHost "http://localhost:5000/page" = true ∧
    download_video happyDl "http://localhost:5000/page" "video_1.mp4"
      = { res := .err .invalidSource, attempts := 0, fileExists := false } :=
  ⟨by decide,
    C2_self_host_rejected_before_any_attempt happyDl "http://localhost:5000/page"
      "video_1.mp4" (by decide)⟩

/-- Counterexample to claim C3: a fetched file of 45MB against the claimed
30MB limit does NOT make the pipeline fail with PayloadTooLarge — the
revision under verification removed the size check (app.py lines 651-657),
so the run succeeds and returns the generated script. -/
theorem C3_counterexample_oversized_file_not_rejected :
    (analyze_video_with_gemini happyGem "models/gemini-1.5-flash-001"
        "video_1.mp4" (45 * 1024 * 1024) "detailed").res
      = .ok "Kich ban thu nghiem" ∧
    (analyze_video_with_gemini happyGem "models/gemini-1.5-flash-001"
        "video_1.mp4" (45 * 1024 * 1024) "detailed").localFileExists = false :=
  ⟨by decide, by decide⟩

/-- Claim C3 amended: no size limit is enforced in this revision — the
pipeline outcome is identical for every file size (the size is only read and
logged), so an oversized fetched file is processed normally rather than
failing with PayloadTooLarge; and for a locally fetched artifact (the
oversized-media scenario) the local file still never survives the call. -/
theorem C3_amended_outcome_independent_of_size (o : GemOracle)
    (chosenModel path mode : String) (s₁ s₂ : Nat) :
    analyze_video_with_gemini o chosenModel path s₁ mode
      = analyze_video_with_gemini o chosenModel path s₂ mode ∧
    (isHttpUrl path = false →
      (analyze_video_with_gemini o chosenModel path s₁ mode).localFileExists
        = false) := by
  constructor
  · rfl
  · intro hlocal
    unfold analyze_video_with_gemini
    dsimp only
    split
    · rename_i hcond
      rw [hlocal] at hcond
      simp at hcond
    · cases o.upload with
      | some msg => rfl
      | none =>
        cases (pollLoop o.state).1 with
        | active =>
          cases modelPhase o chosenModel with
          | ok used => rfl
          | err e => rfl
        | failed => rfl
        | timeout => rfl

/-- Witness for C3: the all-successful run with a 45MB size equals the run
with size 0, and the local artifact is gone. -/
theorem C3_witness :
    analyze_video_with_gemini happyGem "models/gemini-1.5-flash-001"
        "video_1.mp4" (45 * 1024 * 1024) "detailed"
      = analyze_video_with_gemini happyGem "models/gemini-1.5-flash-001"
        "video_1.mp4" 0 "detailed" ∧
    (analyze_video_with_gemini happyGem "models/gemini-1.5-flash-001"
        "video_1.mp4" (45 * 1024 * 1024) "detailed").localFileExists
      = false := by
  have h := C3_amended_outcome_independent_of_size happyGem
    "models/gemini-1.5-flash-001" "video_1.mp4" "detailed"
    (45 * 1024 * 1024) 0
  exact ⟨h.1, h.2 (by decide)⟩

/-- Claim C7: for an Instagram URL, `download_video` walks the three
configured strategy variants in order, returns at the first success, and on
exhaustion raises carrying (only) the last error; in particular, when the
first two fail and the third succeeds it returns the downloaded path
without raising. -/
theorem C7_instagram_ordered_fallback (o : DlOracle) (url tempName : String)
    (e0 e1 e2 : String)
    (hns : matchesSelfHost url = false)
    (hig : strContainsCI url "instagram.com" = true) :
    (o.igAttempt 0 = none →
      download_video o url tempName
        = { res := .ok tempName, attempts := 1, fileExists := true }) ∧
    (o.igAttempt 0 = some e0 → o.igAttempt 1 = none →
      download_video o url tempName
        = { res := .ok tempName, attempts := 2, fileExists := true }) ∧
    (o.igAttempt 0 = some e0 → o.igAttempt 1 = some e1 → o.igAttempt 2 = none →
      download_video o url tempName
        = { res := .ok tempName, attempts := 3, fileExists := true }) ∧
    (o.igAttempt 0 = some e0 → o.igAttempt 1 = some e1 → o.igAttempt 2 = some e2 →
      download_video o url tempName
        = { res := .err (.instagramExhausted (takeChars 150 (stripEsc e2))),
            attempts := 3, fileExists := false }) := by
  have hrange : List.range 3 = [0, 1, 2] := rfl
  refine ⟨?_, ?_, ?_, ?_⟩
  · intro h0
    simp [download_video, hns, hig, hrange, igLoop, h0]
  · intro h0 h1
    simp [download_video, hns, hig, hrange, igLoop, h0, h1]
  · intro h0 h1 h2
    simp [download_video, hns, hig, hrange, igLoop, h0, h1, h2]
  · intro h0 h1 h2
    simp [download_video, hns, hig, hrange, igLoop, h0, h1, h2]

/-- Witness for C7: first two Instagram strategies fail with HTTP 403, the
third succeeds, and the file is returned. -/
theorem C7_witness :
    download_video dl7 "https://www.instagram.com/reel/abc" "video_1.mp4"
      = { res := .ok "video_1.mp4", attempts := 3, fileExists := true } :=
  (C7_instagram_ordered_fallback dl7 "https://www.instagram.com/reel/abc"
      "video_1.mp4" "HTTP Error 403: Forbidden" "HTTP Error 403: Forbidden" ""
      (by decide) (by decide)).2.2.1 (by decide) (by decide) (by decide)

/-- Claim C8: when the cached model choice is rejected at call time with a
model-not-found error, a substitute from the re-enumerated filtered list is
used for this request only, and the process-wide cached choice is unchanged
when the call ends. -/
theorem C8_fallback_model_is_request_local (o : GemOracle)
    (chosenModel path : String) (fileSize : Nat) (mode msg m : String)
    (rest : List String) (L : List (String × Bool))
    (hhttp : isHttpUrl path = false)
    (hup : o.upload = none)
    (hact : (pollLoop o.state).1 = .active)
    (hc : o.createModel chosenModel = some msg)
    (h404 : is404 msg = true)
    (hlist : o.listModels = some L)
    (hfilter : fallbackFilter L = m :: rest)
    (hcm : o.createModel m = none) :
    (analyze_video_with_gemini o chosenModel path fileSize mode).modelUsed
      = some m ∧
    (analyze_video_with_gemini o chosenModel path fileSize mode).chosenAfter
      = chosenModel := by
  constructor <;>
    simp [analyze_video_with_gemini, modelPhase, hhttp, hup, hact, hc, h404,
      hlist, hfilter, hcm]

/-- Witness for C8: the cached `models/gemini-1.5-flash-001` is rejected with
a 404, the substitute `models/gemini-1.5-flash-002` is used, and the cache
keeps its value. -/
theorem C8_witness :
    (analyze_video_with_gemini gem8 "models/gemini-1.5-flash-001"
        "video_1.mp4" 0 "detailed").modelUsed
      = some "models/gemini-1.5-flash-002" ∧
    (analyze_video_with_gemini gem8 "models/gemini-1.5-flash-001"
        "video_1.mp4" 0 "detailed").chosenAfter
      = "models/gemini-1.5-flash-001" :=
  C8_fallback_model_is_request_local gem8 "models/gemini-1.5-flash-001"
    "video_1.mp4" 0 "detailed" "404 model not found"
    "models/gemini-1.5-flash-002" [] [("models/gemini-1.5-flash-002", true)]
    (by decide) (by decide) (by decide) (by decide) (by decide) (by decide)
    (by decide) (by decide)

/-- Claim C9: a local artifact submitted through upload and polling that
reaches ACTIVE, with the generation call returning text `t`, makes
`analyze_video_with_gemini` return `t` verbatim when `t` is non-empty (and
the fixed placeholder when the service returns empty content), and the
local artifact file does not exist after the call. -/
theorem C9_roundtrip_verbatim_and_cleanup (o : GemOracle)
    (chosenModel path : String) (fileSize : Nat) (mode t : String)
    (hhttp : isHttpUrl path = false)
    (hup : o.upload = none)
    (hact : (pollLoop o.state).1 = .active)
    (hmod : o.createModel chosenModel = none)
    (hgen : o.gen 0 = .ok t) :
    (analyze_video_with_gemini o chosenModel path fileSize mode).res
      = .ok (if t = "" then empty_content_placeholder else t) ∧
    (analyze_video_with_gemini o chosenModel path fileSize mode).localFileExists
      = false := by
  have hrange : List.range max_retries = [0, 1, 2] := rfl
  constructor <;>
    simp [analyze_video_with_gemini, modelPhase, genPhase, genFor, hrange,
      hhttp, hup, hact, hmod, hgen]

/-- Witness for C9: the service returns the non-empty text `Xin chao`, which
comes back verbatim, and the local file is gone. -/
theorem C9_witness :
    (analyze_video_with_gemini gem9 "m" "video_1.mp4" 7 "detailed").res
      = .ok "Xin chao" ∧
    (analyze_video_with_gemini gem9 "m" "video_1.mp4" 7 "detailed").localFileExists
      = false := by
  have h := C9_roundtrip_verbatim_and_cleanup gem9 "m" "video_1.mp4" 7
    "detailed" "Xin chao" (by decide) (by decide) (by decide) (by decide)
    (by decide)
  exact ⟨by simpa using h.1, h.2⟩

/-- Counterexample to claim C10: the translate endpoint does not return the
original input text on the empty-content fallback — it returns the STRIPPED
text (app.py line 1134 strips before line 1181 falls back to `text`), so an
input with surrounding whitespace comes back changed. -/
theorem C10_counterexample_translate_returns_stripped_text :
    api_translate trans10 "m"
        { authed := true, text := " xin chao ",
          target_language := "en", language_name := "English" }
      = .ok "xin chao" "en" "English" ∧
    (" xin chao " : String) ≠ "xin chao" :=
  ⟨by decide, by decide⟩

/-- Claim C10 amended: on the empty-content fallback the endpoint returns
the whitespace-stripped input text as `translated_text` (no error, no
placeholder); this is the input unchanged exactly when the input carries no
leading or trailing whitespace. -/
theorem C10_amended_identity_fallback_on_stripped_text (o : TransOracle)
    (chosenModel : String) (req : TransReq)
    (hauth : req.authed = true)
    (hne : String.mk (pyStrip req.text) ≠ "")
    (hmod : o.createModel chosenModel = none)
    (hgen : o.gen 0 = .ok "") :
    api_translate o chosenModel req
      = .ok (String.mk (pyStrip req.text)) req.target_language
          req.language_name := by
  have hrange : List.range max_retries = [0, 1, 2] := rfl
  simp [api_translate, transModelPhase, transFor, hrange, hauth, hne, hmod, hgen]

/-- Witness for C10 at a concrete request whose text has no surrounding
whitespace, so the fallback is the identity. -/
theorem C10_witness :
    api_translate trans10 "m"
        { authed := true, text := "video script",
          target_language := "vi", language_name := "Vietnamese" }
      = .ok (String.mk (pyStrip "video script")) "vi" "Vietnamese" :=
  C10_amended_identity_fallback_on_stripped_text trans10 "m"
    { authed := true, text := "video script",
      target_language := "vi", language_name := "Vietnamese" }
    (by decide) (by decide) (by decide) (by decide)

/-- Counterexample to claim C5: the waits between rate-limited attempts are
NOT monotonically non-decreasing — a parsed `retry in Ns` hint overrides the
doubled delay, so a first error hinting 30s followed by one hinting 1s makes
the loop sleep 32 and then 3.  The remaining parts of the claim (3 attempts,
RateLimited raised on exhaustion) do hold on this run. -/
theorem C5_counterexample_decreasing_backoff :
    (analyze_video_with_gemini gem5 "m" "video_1.mp4" 0 "detailed").sleeps
      = [32, 3] ∧
    sortedLe (analyze_video_with_gemini gem5 "m" "video_1.mp4" 0 "detailed").sleeps
      = false ∧
    (analyze_video_with_gemini gem5 "m" "video_1.mp4" 0 "detailed").res
      = .err (.rateLimited "Error 429: quota exceeded.") ∧
    (analyze_video_with_gemini gem5 "m" "video_1.mp4" 0 "detailed").attemptsMade
      = 3 := by
  refine ⟨?_, ?_, ?_, ?_⟩ <;> decide

/-- Claim C5 amended: over a run whose generation attempts all fail with a
rate-limit signal, at most 3 attempts are made and the RateLimited error
carrying the last message is raised on exhaustion; the waits double from 5
(hence are non-decreasing) whenever no `retry in Ns` hint is parsed from the
first two error texts — a parsed hint overrides the delay with hint+2 and
may decrease it. -/
theorem C5_amended_bounded_retries_doubling_without_hint (o : GemOracle)
    (chosenModel path : String) (fileSize : Nat) (mode m0 m1 m2 : String)
    (hhttp : isHttpUrl path = false)
    (hup : o.upload = none)
    (hact : (pollLoop o.state).1 = .active)
    (hmod : o.createModel chosenModel = none)
    (h0 : o.gen 0 = .exn m0) (h1 : o.gen 1 = .exn m1) (h2 : o.gen 2 = .exn m2)
    (hr0 : isRateLimit m0 = true) (hr1 : isRateLimit m1 = true)
    (hr2 : isRateLimit m2 = true)
    (hp0 : parseRetry m0 = none) (hp1 : parseRetry m1 = none) :
    (analyze_video_with_gemini o chosenModel path fileSize mode).sleeps
      = [5, 10] ∧
    sortedLe (analyze_video_with_gemini o chosenModel path fileSize mode).sleeps
      = true ∧
    (analyze_video_with_gemini o chosenModel path fileSize mode).attemptsMade
      = 3 ∧
    (analyze_video_with_gemini o chosenModel path fileSize mode).attemptsMade
      ≤ max_retries ∧
    (analyze_video_with_gemini o chosenModel path fileSize mode).res
      = .err (.rateLimited m2) := by
  have hrange : List.range max_retries = [0, 1, 2] := rfl
  refine ⟨?_, ?_, ?_, ?_, ?_⟩ <;>
    simp [analyze_video_with_gemini, modelPhase, genPhase, genFor, hrange,
      hhttp, hup, hact, hmod, h0, h1, h2, hr0, hr1, hr2, hp0, hp1,
      max_retries, sortedLe]

/-- Witness for C5 on a run whose three attempts all fail with a hint-free
429 message: the waits are 5 then 10 and the run ends rate-limited. -/
theorem C5_witness :
    (analyze_video_with_gemini gem5w "m" "video_1.mp4" 0 "detailed").sleeps
      = [5, 10] ∧
    (analyze_video_with_gemini gem5w "m" "video_1.mp4" 0 "detailed").res
      = .err (.rateLimited "429 quota hit") := by
  have h := C5_amended_bounded_retries_doubling_without_hint gem5w "m"
    "video_1.mp4" 0 "detailed" "429 quota hit" "429 quota hit" "429 quota hit"
    (by decide) (by decide) (by decide) (by decide) (by decide) (by decide)
    (by decide) (by decide) (by decide) (by decide) (by decide) (by decide)
  exact ⟨h.1, h.2.2.2.2⟩

/-- Counterexample to claim C4: an uploaded artifact that reached ACTIVE can
see ZERO `delete_file` calls — the model-instantiation phase (app.py lines
739-781) runs before the try/finally guarding the deletion (line 822), so a
non-404 model-creation error propagates with the remote artifact never
deleted. -/
theorem C4_counterexample_zero_deletes_after_active :
    (pollLoop gem4.state).1 = .active ∧
    (analyze_video_with_gemini gem4 "m" "video_1.mp4" 0 "detailed").deleteCalls
      = 0 ∧
    (analyze_video_with_gemini gem4 "m" "video_1.mp4" 0 "detailed").res
      = .err (.modelCreateError "Internal server error") := by
  refine ⟨?_, ?_, ?_⟩ <;> decide

/-- Claim C4 amended: for an artifact that reaches ACTIVE, the number of
`delete_file` calls is between one and two when the model-instantiation
step succeeds — exactly one unless the in-loop deletion call itself raises
(in which case the finally block issues a second call) — and zero when
model instantiation fails, since that failure is raised before the
try/finally that performs the deletion. -/
theorem C4_amended_delete_call_count (o : GemOracle)
    (chosenModel path : String) (fileSize : Nat) (mode : String)
    (hhttp : isHttpUrl path = false)
    (hup : o.upload = none)
    (hact : (pollLoop o.state).1 = .active) :
    (∀ u, modelPhase o chosenModel = .ok u →
      1 ≤ (analyze_video_with_gemini o chosenModel path fileSize mode).deleteCalls ∧
      (analyze_video_with_gemini o chosenModel path fileSize mode).deleteCalls ≤ 2 ∧
      (o.deleteFails 0 = false →
        (analyze_video_with_gemini o chosenModel path fileSize mode).deleteCalls
          = 1)) ∧
    (∀ e, modelPhase o chosenModel = .err e →
      (analyze_video_with_gemini o chosenModel path fileSize mode).deleteCalls
        = 0) := by
  constructor
  · intro u hmp
    have hd : (analyze_video_with_gemini o chosenModel path fileSize mode).deleteCalls
        = (genPhase o.gen o.deleteFails).deleteCalls := by
      simp [analyze_video_with_gemini, hhttp, hup, hact, hmp]
    rw [hd]
    have hval : (genPhase o.gen o.deleteFails).deleteCalls
        = (genFor o.gen o.deleteFails (List.range max_retries) 5 [] 0).inLoopDeletes
          + (if (genFor o.gen o.deleteFails (List.range max_retries) 5 [] 0).uploadedCleared
              then 0 else 1) := rfl
    rw [hval]
    rcases genFor_delete_shape o.gen o.deleteFails (List.range max_retries) 5 [] 0
      with ⟨hdel, hcl⟩ | ⟨hdel, hcl⟩
    · rw [hdel, hcl]
      cases hdf : o.deleteFails 0 with
      | false => simp
      | true => simp
    · rw [hdel, hcl]
      simp
  · intro e hmp
    simp [analyze_video_with_gemini, hhttp, hup, hact, hmp]

/-- Witness for C4: on the all-successful run exactly one deletion call is
made. -/
theorem C4_witness :
    (analyze_video_with_gemini happyGem "m" "video_1.mp4" 0 "detailed").deleteCalls
      = 1 := by
  have h := C4_amended_delete_call_count happyGem "m" "video_1.mp4" 0 "detailed"
    (by decide) (by decide) (by decide)
  exact (h.1 "m" (by decide)).2.2 (by decide)

/-- Claim C6: the submission step polls the remote state on the 2-unit
schedule starting at 0 for at most 60 polls (the 120-unit window); a FAILED
state observed first makes the call raise the service-rejection error, and
a window in which every polled state is still PROCESSING (so ACTIVE is
never observed) makes it raise the processing-timeout error. -/
theorem C6_polling_schedule_and_error_mapping (o : GemOracle)
    (chosenModel path : String) (fileSize : Nat) (mode : String)
    (hhttp : isHttpUrl path = false)
    (hup : o.upload = none) :
    ((analyze_video_with_gemini o chosenModel path fileSize mode).pollTimes
        = List.range' 0
            (analyze_video_with_gemini o chosenModel path fileSize mode).pollTimes.length
            2 ∧
      (analyze_video_with_gemini o chosenModel path fileSize mode).pollTimes.length
        ≤ 60) ∧
    (∀ w, w < max_wait → w % 2 = 0 → o.state w = .FAILED →
      (∀ v, v < w → v % 2 = 0 → o.state v = .PROCESSING) →
      (analyze_video_with_gemini o chosenModel path fileSize mode).res
        = .err (.rejectedByService
            (matchesRejectedOrFailed (rejectedFileMsg o.fileErrorAttr)))) ∧
    ((∀ k, k < 60 → o.state (2 * k) = .PROCESSING) →
      (analyze_video_with_gemini o chosenModel path fileSize mode).res
        = .err .processingTimeout) := by
  have hpt : (analyze_video_with_gemini o chosenModel path fileSize mode).pollTimes
      = (pollLoop o.state).2 := by
    cases h1 : (pollLoop o.state).1 with
    | active =>
      cases h2 : modelPhase o chosenModel with
      | ok used => simp [analyze_video_with_gemini, hhttp, hup, h1, h2]
      | err e => simp [analyze_video_with_gemini, hhttp, hup, h1, h2]
    | failed => simp [analyze_video_with_gemini, hhttp, hup, h1]
    | timeout => simp [analyze_video_with_gemini, hhttp, hup, h1]
  refine ⟨⟨?_, ?_⟩, ?_, ?_⟩
  · rw [hpt]
    exact pollGo_times o.state 61 0
  · rw [hpt]
    exact pollLoop_length_le o.state
  · intro w hw hev hf hbef
    have hfail := pollGo_first_failed o.state w hw hev hf hbef
    simp [analyze_video_with_gemini, hhttp, hup, hfail]
  · intro hall
    have ht := pollGo_all_processing_timeout o.state hall
    simp [analyze_video_with_gemini, hhttp, hup, ht]

/-- Witness for C6: a file that is FAILED at the first poll makes the call
raise the service-rejection error. -/
theorem C6_witness :
    (analyze_video_with_gemini gem6 "m" "video_1.mp4" 0 "detailed").res
      = .err (.rejectedByService false) := by
  have h := C6_polling_schedule_and_error_mapping gem6 "m" "video_1.mp4" 0
    "detailed" (by decide) (by decide)
  have h2 := h.2.1 0 (by decide) (by decide) (by decide)
    (fun v hv _ => absurd hv (Nat.not_lt_zero v))
  have hflag : matchesRejectedOrFailed (rejectedFileMsg gem6.fileErrorAttr)
      = false := by decide
  rw [hflag] at h2
  exact h2
